import Mathlib

/-!
Shallow embedding of the tokenized/txbuilder fee-estimation and
change-reconciliation core: the unlocking-script size estimators
(`txbuilder.UnlockingScriptSize` and `fees.EstimateUnlockingSize`), the
size/value aggregators, the change reconciler (`TxBuilder.AdjustFee`) and the
unlocking-data / unlocking-size declaration codecs.

Modelling conventions:
- Go `uint64` / `int` values become `Nat` (with an explicit `% 2 ^ 64` at the
  one place the source can wrap), signed `int64` amounts become `Int`.
- Bitcoin scripts are modelled by a template sum type plus a byte length,
  following the closed template set the estimators dispatch on.  External
  classification capabilities (`IsP2PK`, `IsP2PKH`, `MultiPKHCounts`,
  `agent_bitcoin_transfer.MatchScript`, `Script.RemoveHardVerify`) become
  total functions on that sum type.
- The external wrapper-overhead function
  `agent_bitcoin_transfer.ApproveUnlockingSize` is an arbitrary parameter
  `approve : Nat → Nat`.
- The IEEE-754 `float64` fee arithmetic
  (`EstimatedFeeValue(size, feeRate) = uint64(math.Ceil(float64(size) * feeRate))`)
  cannot be embedded exactly; the size-to-fee map at the builder's configured
  rate is therefore an explicit function parameter `fee : Nat → Nat`, standing
  for `EstimatedFeeValue(·, float64(tx.FeeRate))`.  For the maps the source
  realizes (ceiling of a nonnegative rate times the size) `fee` is monotone,
  so the one `uint64` subtraction of two fee values never wraps and is
  modelled as truncated `Nat` subtraction.
- Fallible Go functions returning `(T, error)` become `Except` values; the
  `(msg, payload, err)` triples of the codec parsers become explicit triples.
-/

set_option autoImplicit false
set_option linter.unnecessarySeqFocus false
set_option linter.dupNamespace false
set_option linter.unusedVariables false

deriving instance DecidableEq for Except

namespace TxB

/-! ### Constants (txbuilder package, sizes.go) -/

def Hash32Size : Nat := 32

def BaseTxSize : Nat := 8

def PublicKeyHashPushDataSize : Nat := 21

def PublicKeyPushDataSize : Nat := 34

def MaxSignatureSize : Nat := 73

def MaxSignaturesPushDataSize : Nat := 1 + MaxSignatureSize

def InputBaseSize : Nat := Hash32Size + 4 + 4

def MaximumP2PKHSigScriptSize : Nat := MaxSignaturesPushDataSize + PublicKeyPushDataSize

def MaximumP2PKHInputSize : Nat := InputBaseSize + 1 + MaximumP2PKHSigScriptSize

def OutputBaseSize : Nat := 8

def P2PKHOutputScriptSize : Nat := PublicKeyHashPushDataSize + 4

def P2PKHOutputSize : Nat := OutputBaseSize + 1 + P2PKHOutputScriptSize

def DustInputSize : Nat := 148

/-- Embeds `VarIntSerializeSize`: the number of bytes it would take to
serialize `val` as a variable length integer (txbuilder and wire versions are
the same function). -/
def VarIntSerializeSize (val : Nat) : Nat :=
  if val < 0xfd then 1
  else if val ≤ 0xffff then 3
  else if val ≤ 0xffffffff then 5
  else 9

/-! ### Script templates

The estimators dispatch over a closed set of script templates.  The external
classification predicates are modelled by the constructors: a script with a
mandatory hard-verification clause prepended is `hardVerified t` (it matches
none of the plain-template predicates until the clause is removed), and an
agent escrow script recognized by `agent_bitcoin_transfer.MatchScript` is
`agentWrapped agentLockingScript`. -/

inductive Template where
  | p2pk
  | p2pkh
  | multiPKH (required total : Nat)
  | hardVerified (inner : Template)
  | agentWrapped (agentLockingScript : Template)
  | otherTemplate
  deriving DecidableEq, Repr

/-- A locking script: its template together with its serialized byte length
(`len lockingScript` in the source).  A script of length 0 is the empty
script. -/
structure Script where
  template : Template
  len : Nat
  deriving DecidableEq, Repr

/-- External capability `bitcoin.Script.RemoveHardVerify`: strips the
mandatory hard-verification clause, the identity when there is none. -/
def removeHardVerify : Template → Template
  | .hardVerified t => t
  | t => t

inductive ScriptSizeErr where
  | unknownScriptTemplate
  | wrongScriptTemplate
  | runtimePanic
  deriving DecidableEq, Repr

/-- Embeds `txbuilder.UnlockingScriptSize`: the length of the unlocking
script needed to unlock the specified locking script.  `approve` is the
external `agent_bitcoin_transfer.ApproveUnlockingSize` wrapper-overhead
function.  In the agent case the source takes a copy of
`info.AgentLockingScript`, calls `RemoveHardVerify` on it and recurses; the
strip is inlined into the two `agentWrapped` patterns so the recursion is
structural, and the equation with `removeHardVerify` is proved as
`UnlockingScriptSize_agentWrapped` below. -/
def UnlockingScriptSize (approve : Nat → Nat) : Template → Except ScriptSizeErr Nat
  | .p2pk => .ok MaxSignaturesPushDataSize
  | .p2pkh => .ok (MaxSignaturesPushDataSize + PublicKeyPushDataSize)
  | .multiPKH required total =>
      .ok ((total - required) + required * (MaxSignaturesPushDataSize + PublicKeyPushDataSize + 1))
  | .agentWrapped (.hardVerified inner) =>
      match UnlockingScriptSize approve inner with
      | .error e => .error e -- errors.Wrap(err, "agent unlocking size") keeps the kind
      | .ok n => .ok (approve n)
  | .agentWrapped agentLockingScript =>
      match UnlockingScriptSize approve agentLockingScript with
      | .error e => .error e
      | .ok n => .ok (approve n)
  | .hardVerified _ => .error .unknownScriptTemplate
  | .otherTemplate => .error .unknownScriptTemplate

/-- The agent case of `UnlockingScriptSize` is exactly: strip the inner
template's hard-verification clause, recurse, wrap with the approval-layer
overhead. -/
theorem UnlockingScriptSize_agentWrapped (approve : Nat → Nat) (t : Template) :
    UnlockingScriptSize approve (.agentWrapped t) =
      (UnlockingScriptSize approve (removeHardVerify t)).map approve := by
  cases t with
  | hardVerified inner =>
    cases h : UnlockingScriptSize approve inner <;>
      simp [UnlockingScriptSize, removeHardVerify, Except.map, h]
  | agentWrapped inner =>
    cases h : UnlockingScriptSize approve (.agentWrapped inner) <;>
      simp [UnlockingScriptSize, removeHardVerify, Except.map, h]
  | p2pk => rfl
  | p2pkh => rfl
  | multiPKH required total => rfl
  | otherTemplate => rfl

/-- Embeds `txbuilder.InputSize`: serialized size of an input spending the given
locking script. -/
def InputSize (approve : Nat → Nat) (lockingScript : Script) : Except ScriptSizeErr Nat :=
  match UnlockingScriptSize approve lockingScript.template with
  | .error e => .error e
  | .ok scriptSize => .ok (InputBaseSize + VarIntSerializeSize scriptSize + scriptSize)

/-- Embeds `txbuilder.OutputSize`: serialized size of an output carrying the given
locking script (also `wire.TxOut.SerializeSize`). -/
def OutputSize (lockingScript : Script) : Nat :=
  OutputBaseSize + VarIntSerializeSize lockingScript.len + lockingScript.len

end TxB

namespace Fees

open TxB

/-- Embeds `fees.EstimateUnlockingSize` (the parallel implementation in the fees
package).  The first three template cases match the txbuilder version.  The
agent case in the source reads

  if info, err := agent_bitcoin_transfer.MatchScript(lockingScript); err != nil {
      agentUnlockingSize, err := EstimateUnlockingSize(info.AgentLockingScript)
      ...
  }
  return 0, bitcoin.ErrWrongScriptTemplate

so the branch body runs only when `MatchScript` FAILED, at which point `info`
is nil and the field access panics (modelled as `runtimePanic`); when
`MatchScript` succeeds the branch is skipped and the function falls through to
`ErrWrongScriptTemplate`.  No recursion ever executes. -/
def EstimateUnlockingSize : Template → Except ScriptSizeErr Nat
  | .p2pk => .ok MaxSignaturesPushDataSize
  | .p2pkh => .ok (MaxSignaturesPushDataSize + PublicKeyPushDataSize)
  | .multiPKH required total =>
      .ok ((total - required) + required * (MaxSignaturesPushDataSize + PublicKeyPushDataSize + 1))
  | .agentWrapped _ => .error .wrongScriptTemplate
  | .hardVerified _ => .error .runtimePanic
  | .otherTemplate => .error .runtimePanic

end Fees

namespace Codec

/-! ### Declaration codec (channels/unlocking_data and unlocking_size)

Envelope payloads are a list of protocol IDs plus a list of script push
items.  Script number push items are modelled by the integer they encode:
the external minimal encoding (`bitcoin.PushNumberScriptItem` /
`ScriptNumberValue` and their unsigned variants) is a consumed capability,
so `pushNumber n` is `n` itself and decoding is exact. -/

structure EnvelopeData where
  protocolIDs : List String
  payload : List Int
  deriving DecidableEq, Repr

/-- Embeds `bitcoin.PushNumberScriptItem`. -/
def pushNumber (n : Int) : Int := n

/-- Embeds `bitcoin.PushNumberScriptItemUnsigned`. -/
def pushNumberUnsigned (n : Nat) : Int := (n : Int)

/-- Embeds `bitcoin.ScriptNumberValue` (never fails on items built by the writers,
so modelled total). -/
def scriptNumberValue (item : Int) : Int := item

/-- Embeds `bitcoin.ScriptNumberValueUnsigned`. -/
def scriptNumberValueUnsigned (item : Int) : Nat := item.toNat

inductive CodecErr where
  /-- Embeds `channels.ErrInvalidMessage` ("3 push datas needed" / "2 push datas needed"). -/
  | invalidMessage
  /-- Embeds `ErrUnsupportedVersion`. -/
  | unsupportedVersion
  deriving DecidableEq, Repr

/-- Protocol ID of the unlocking-data codec. -/
def udProtocolID : String := "UL"

/-- Protocol ID of the unlocking-size codec. -/
def usProtocolID : String := "UL_S"

structure UnlockingData where
  Size : Nat
  Value : Nat
  deriving DecidableEq, Repr

/-- Embeds `unlocking_data.UnlockingData.Write`: version push then size and value
pushes, tag prefixed. -/
def UnlockingData.Write (m : UnlockingData) : EnvelopeData :=
  { protocolIDs := [udProtocolID]
    payload := [pushNumber 0, pushNumberUnsigned m.Size, pushNumberUnsigned m.Value] }

/-- Embeds `unlocking_data.Parse`: it returns `(message?, remaining payload, error?)`
mirroring the Go `(channels.Message, envelope.Data, error)` triple. -/
def udParse (payload : EnvelopeData) :
    Option UnlockingData × EnvelopeData × Option CodecErr :=
  match payload.protocolIDs with
  | [] => (none, payload, none)
  | pid :: rest =>
    if pid ≠ udProtocolID then (none, payload, none)
    else
      let popped : EnvelopeData := { payload with protocolIDs := rest }
      if payload.payload.length < 3 then (none, popped, some .invalidMessage)
      else
        let version := scriptNumberValue payload.payload[0]!
        if version ≠ 0 then (none, popped, some .unsupportedVersion)
        else
          let size := scriptNumberValueUnsigned payload.payload[1]!
          let value := scriptNumberValueUnsigned payload.payload[2]!
          (some { Size := size, Value := value },
           { protocolIDs := rest, payload := payload.payload.drop 3 }, none)

structure UnlockingSize where
  UnlockingSize : Nat
  deriving DecidableEq, Repr

/-- Embeds `unlocking_size.UnlockingSize.Write`. -/
def usWrite (m : UnlockingSize) : EnvelopeData :=
  { protocolIDs := [usProtocolID]
    payload := [pushNumber 0, pushNumberUnsigned m.UnlockingSize] }

/-- Embeds `unlocking_size.Parse`. -/
def usParse (payload : EnvelopeData) :
    Option UnlockingSize × EnvelopeData × Option CodecErr :=
  match payload.protocolIDs with
  | [] => (none, payload, none)
  | pid :: rest =>
    if pid ≠ usProtocolID then (none, payload, none)
    else
      let popped : EnvelopeData := { payload with protocolIDs := rest }
      if payload.payload.length < 2 then (none, popped, some .invalidMessage)
      else
        let version := scriptNumberValue payload.payload[0]!
        if version ≠ 0 then (none, popped, some .unsupportedVersion)
        else
          let size := scriptNumberValueUnsigned payload.payload[1]!
          (some { UnlockingSize := size },
           { protocolIDs := rest, payload := payload.payload.drop 2 }, none)

/-- Embeds `channels.NewProtocols(unlocking_data.NewProtocol()).Parse` applied to a
placeholder script's envelope data: yields the message exactly when the
unlocking-data codec parses one without error (the two Go call-site checks
`err == nil` and the `*UnlockingData` type assertion). -/
def protocolsParseUD (d : EnvelopeData) : Option UnlockingData :=
  match udParse d with
  | (some m, _, none) => some m
  | _ => none

end Codec

namespace TxB

open Codec

/-! ### Transaction model

`TxBuilder` keeps parallel lists `MsgTx.TxIn`/`Inputs` and
`MsgTx.TxOut`/`Outputs`; since `AdjustFee` maintains them in lockstep each
pair is merged into one record here.  An input's unlocking script matters
only through `IsFalseOpReturn` and envelope parsing, so it is modelled as
either an ordinary script or a false-op-return placeholder carrying its
already-parsed envelope data (envelope framing is an external capability). -/

inductive UScript where
  | raw (len : Nat)
  | falseOpReturn (data : EnvelopeData)
  deriving DecidableEq, Repr

/-- One transaction input: `Inputs[i].LockingScript`, `Inputs[i].Value` and
`MsgTx.TxIn[i].UnlockingScript`. -/
structure Input where
  lockingScript : Script
  value : Nat
  unlockingScript : UScript
  deriving DecidableEq, Repr

/-- One transaction output: `MsgTx.TxOut[i].Value`,
`MsgTx.TxOut[i].LockingScript` and the supplement flags
`Outputs[i].IsRemainder`, `Outputs[i].addedForFee`, `Outputs[i].KeyID`. -/
structure Output where
  lockingScript : Script
  value : Nat
  isRemainder : Bool
  addedForFee : Bool
  keyID : String
  deriving DecidableEq, Repr

instance : Inhabited Output :=
  ⟨{ lockingScript := ⟨.otherTemplate, 0⟩, value := 0, isRemainder := false,
     addedForFee := false, keyID := "" }⟩

/-- The transaction builder state: the parallel input/output lists, the
configured change locking script (empty when unconfigured) and change key id.
The `float32` fee rates are not part of the state here; the size-to-fee map
they induce is passed to the operations as the `fee` parameter. -/
structure TxBuilder where
  inputs : List Input
  outputs : List Output
  changeScript : Script
  changeKeyID : String
  deriving DecidableEq

/-! ### Fee arithmetic -/

/-- Modelled from the spec: `OutputTotalCost` is code of this repository that
is not under src/ (only its `AdjustFee` call sites are).  Spec §4.3:
`outputTotalCost(lockingScript, rate) -> (outputFee, inputFee)` with
`outputFee = feeForSize(outputSize(lockingScript), rate)` and
`inputFee = feeForSize(inputSize(lockingScript), rate)`; `fee` is the
size-to-fee map at the configured rate.  The source call sites ignore the
error return; when the unlocking size is unknown the input-fee term is
modelled as 0. -/
def OutputTotalCost (approve fee : Nat → Nat) (lockingScript : Script) : Nat × Nat :=
  (fee (OutputSize lockingScript),
   match InputSize approve lockingScript with
   | .ok n => fee n
   | .error _ => 0)

/-! ### Size and value aggregation -/

/-- Per-input contribution to `txbuilder.EstimatedSize` (lines 192-217): a
declared size when the locking script is empty and the placeholder carries a
valid unlocking-data declaration, otherwise `InputSize` with a fall back to
`MaximumP2PKHInputSize` on error. -/
def estInputSize (approve : Nat → Nat) (inp : Input) : Nat :=
  let declared : Option Nat :=
    if inp.lockingScript.len = 0 then
      match inp.unlockingScript with
      | .falseOpReturn data => (protocolsParseUD data).map (·.Size)
      | .raw _ => none
    else none
  match declared with
  | some sz => InputBaseSize + VarIntSerializeSize sz + sz
  | none =>
    match InputSize approve inp.lockingScript with
    | .ok n => n
    | .error _ => MaximumP2PKHInputSize -- Fall back to P2PKH

/-- Embeds `txbuilder.TxBuilder.EstimatedSize`. -/
def EstimatedSize (approve : Nat → Nat) (tx : TxBuilder) : Nat :=
  BaseTxSize + VarIntSerializeSize tx.inputs.length + VarIntSerializeSize tx.outputs.length
    + (tx.inputs.map (estInputSize approve)).sum
    + (tx.outputs.map (fun o => OutputSize o.lockingScript)).sum

/-- Embeds `txbuilder.TxBuilder.InputValue`: sum of input values, substituting the
declared `Value` for inputs whose value is recorded as 0 and whose
placeholder script carries a valid unlocking-data declaration. -/
def TxBuilder.InputValue (tx : TxBuilder) : Nat :=
  tx.inputs.foldl
    (fun inputValue inp =>
      if inp.value = 0 then
        match inp.unlockingScript with
        | .falseOpReturn data =>
          match protocolsParseUD data with
          | some unlockData => inputValue + unlockData.Value
          | none => inputValue + inp.value
        | .raw _ => inputValue + inp.value
      else inputValue + inp.value)
    0

/-! ### Change reconciliation -/

inductive TxErr where
  | insufficientValue
  | changeAddressNeeded
  deriving DecidableEq, Repr

/-- Embeds `txbuilder.TxBuilder.AdjustFee` (part_000 lines 300-405): adjusts the tx
fee up or down depending on whether `amount` is positive or negative,
returning the mutated builder together with the Go `(bool, error)` pair.
Go mutates the receiver in place, so the builder returned on an error path
carries whatever mutations happened before the failure.  `AddOutput` is code
of this repository not under src/; modelled from the spec as appending an
output carrying the given script, value and `IsRemainder` flag (the source
then sets `KeyID` and `addedForFee` on the appended output). -/
def AdjustFee (approve fee : Nat → Nat) (tx : TxBuilder) (amount : Int) :
    TxBuilder × Bool × Option TxErr :=
  if amount = 0 then (tx, true, none)
  else
    -- Find change output (0xffffffff sentinel becomes Option)
    let changeOutputIndex? := tx.outputs.findIdx? (fun o => o.isRemainder)
    if amount > 0 then
      -- Increase fee, transfer from change
      match changeOutputIndex? with
      | none => (tx, false, some .insufficientValue) -- "No existing change for tx fee"
      | some changeOutputIndex =>
        let chg := tx.outputs[changeOutputIndex]!
        if chg.value < amount.toNat then
          (tx, false, some .insufficientValue) -- "Not enough change for tx fee"
        else
          -- Decrease change, thereby increasing the fee
          let chg1 := { chg with value := chg.value - amount.toNat }
          let tx1 := { tx with outputs := tx.outputs.set changeOutputIndex chg1 }
          let cost := OutputTotalCost approve fee chg1.lockingScript
          -- Check if change is below dust
          if chg1.value < cost.1 + cost.2 then
            if chg1.addedForFee = false then
              -- Don't remove outputs unless they were added by fee adjustment
              (tx1, false, some .insufficientValue)
            else
              -- Remove change output since it is less than dust
              ({ tx1 with outputs := tx1.outputs.eraseIdx changeOutputIndex }, true, none)
          else (tx1, false, none)
    else
      -- Decrease fee, transfer to change
      match changeOutputIndex? with
      | some changeOutputIndex =>
        -- Increase change, thereby decreasing the fee (uint64 addition wraps)
        let chg := tx.outputs[changeOutputIndex]!
        let chg1 := { chg with value := (chg.value + (-amount).toNat) % 2 ^ 64 }
        ({ tx with outputs := tx.outputs.set changeOutputIndex chg1 }, false, none)
      | none =>
        -- Adjust amount of fee adjustment for new output being added
        let currentSize := EstimatedSize approve tx
        let currentFee := fee currentSize
        let newSize :=
          if tx.changeScript.len = 0 then currentSize + P2PKHOutputSize
          else currentSize + OutputSize tx.changeScript
        let newFee := fee newSize
        -- uint64 subtraction; never wraps for the fee maps the source
        -- realizes, which are monotone in size
        let changeOutputFee := newFee - currentFee
        if changeOutputFee > (-amount).toNat then
          (tx, true, none) -- adding a change output would make the adjustment negative
        else
          let adjustment := (-amount).toNat - changeOutputFee
          let cost :=
            if tx.changeScript.len = 0 then
              -- Assume P2PKH times two for costs of adding an output
              (fee (P2PKHOutputSize * 2), fee (MaximumP2PKHInputSize * 2))
            else OutputTotalCost approve fee tx.changeScript
          if adjustment > cost.1 + cost.2 then
            if tx.changeScript.len = 0 then
              (tx, false, some .changeAddressNeeded)
            else
              ({ tx with outputs := tx.outputs ++
                  [{ lockingScript := tx.changeScript, value := adjustment,
                     isRemainder := true, addedForFee := true,
                     keyID := tx.changeKeyID }] },
               false, none)
          else (tx, true, none) -- Leave less than dust as additional tx fee

/-! ### Branch characterization of `AdjustFee` (shared helper lemmas) -/

theorem eraseIdx_set_self {α : Type} (l : List α) (i : Nat) (a : α) :
    (l.set i a).eraseIdx i = l.eraseIdx i := by
  induction l generalizing i with
  | nil => simp
  | cons x xs ih => cases i <;> simp [List.set, List.eraseIdx, ih]

theorem adjustFee_zero (approve fee : Nat → Nat) (tx : TxBuilder) :
    AdjustFee approve fee tx 0 = (tx, true, none) := by
  simp [AdjustFee]

theorem adjustFee_pos_noChange (approve fee : Nat → Nat) (tx : TxBuilder) (amount : Int)
    (h0 : amount > 0)
    (hfind : tx.outputs.findIdx? (fun o => o.isRemainder) = none) :
    AdjustFee approve fee tx amount = (tx, false, some .insufficientValue) := by
  have hne : amount ≠ 0 := by omega
  simp only [AdjustFee, hfind, if_neg hne, if_pos h0]

theorem adjustFee_pos_notEnough (approve fee : Nat → Nat) (tx : TxBuilder) (amount : Int)
    (i : Nat) (h0 : amount > 0)
    (hfind : tx.outputs.findIdx? (fun o => o.isRemainder) = some i)
    (hval : tx.outputs[i]!.value < amount.toNat) :
    AdjustFee approve fee tx amount = (tx, false, some .insufficientValue) := by
  have hne : amount ≠ 0 := by omega
  simp only [AdjustFee, hfind, if_neg hne, if_pos h0, if_pos hval]

theorem adjustFee_pos_keep (approve fee : Nat → Nat) (tx : TxBuilder) (amount : Int) (i : Nat)
    (h0 : amount > 0)
    (hfind : tx.outputs.findIdx? (fun o => o.isRemainder) = some i)
    (hval : ¬ tx.outputs[i]!.value < amount.toNat)
    (hdust : ¬ (tx.outputs[i]!.value - amount.toNat <
      (OutputTotalCost approve fee tx.outputs[i]!.lockingScript).1 +
      (OutputTotalCost approve fee tx.outputs[i]!.lockingScript).2)) :
    AdjustFee approve fee tx amount =
      ({ tx with
          outputs := tx.outputs.set i
            ({ tx.outputs[i]! with value := tx.outputs[i]!.value - amount.toNat }) },
       false, none) := by
  have hne : amount ≠ 0 := by omega
  simp only [AdjustFee, hfind, if_neg hne, if_pos h0, if_neg hval, if_neg hdust]

theorem adjustFee_pos_below_notOwned (approve fee : Nat → Nat) (tx : TxBuilder) (amount : Int)
    (i : Nat) (h0 : amount > 0)
    (hfind : tx.outputs.findIdx? (fun o => o.isRemainder) = some i)
    (hval : ¬ tx.outputs[i]!.value < amount.toNat)
    (hdust : tx.outputs[i]!.value - amount.toNat <
      (OutputTotalCost approve fee tx.outputs[i]!.lockingScript).1 +
      (OutputTotalCost approve fee tx.outputs[i]!.lockingScript).2)
    (haf : tx.outputs[i]!.addedForFee = false) :
    AdjustFee approve fee tx amount =
      ({ tx with
          outputs := tx.outputs.set i
            ({ tx.outputs[i]! with value := tx.outputs[i]!.value - amount.toNat }) },
       false, some .insufficientValue) := by
  have hne : amount ≠ 0 := by omega
  simp only [AdjustFee, hfind, if_neg hne, if_pos h0, if_neg hval, if_pos hdust, haf]
  simp

theorem adjustFee_pos_below_owned (approve fee : Nat → Nat) (tx : TxBuilder) (amount : Int)
    (i : Nat) (h0 : amount > 0)
    (hfind : tx.outputs.findIdx? (fun o => o.isRemainder) = some i)
    (hval : ¬ tx.outputs[i]!.value < amount.toNat)
    (hdust : tx.outputs[i]!.value - amount.toNat <
      (OutputTotalCost approve fee tx.outputs[i]!.lockingScript).1 +
      (OutputTotalCost approve fee tx.outputs[i]!.lockingScript).2)
    (haf : tx.outputs[i]!.addedForFee = true) :
    AdjustFee approve fee tx amount =
      ({ tx with outputs := tx.outputs.eraseIdx i }, true, none) := by
  have hne : amount ≠ 0 := by omega
  simp only [AdjustFee, hfind, if_neg hne, if_pos h0, if_neg hval, if_pos hdust, haf,
    eraseIdx_set_self]
  simp

theorem adjustFee_neg_grow (approve fee : Nat → Nat) (tx : TxBuilder) (amount : Int) (i : Nat)
    (h0 : amount < 0)
    (hfind : tx.outputs.findIdx? (fun o => o.isRemainder) = some i) :
    AdjustFee approve fee tx amount =
      ({ tx with
          outputs := tx.outputs.set i
            ({ tx.outputs[i]! with
                value := (tx.outputs[i]!.value + (-amount).toNat) % 2 ^ 64 }) },
       false, none) := by
  have hne : amount ≠ 0 := by omega
  have hnp : ¬ amount > 0 := by omega
  simp only [AdjustFee, hfind, if_neg hne, if_neg hnp]

theorem adjustFee_neg_tooCostly (approve fee : Nat → Nat) (tx : TxBuilder) (amount : Int)
    (h0 : amount < 0)
    (hfind : tx.outputs.findIdx? (fun o => o.isRemainder) = none)
    (hcost : fee (if tx.changeScript.len = 0 then EstimatedSize approve tx + P2PKHOutputSize
        else EstimatedSize approve tx + OutputSize tx.changeScript) -
      fee (EstimatedSize approve tx) > (-amount).toNat) :
    AdjustFee approve fee tx amount = (tx, true, none) := by
  have hne : amount ≠ 0 := by omega
  have hnp : ¬ amount > 0 := by omega
  simp only [AdjustFee, hfind, if_neg hne, if_neg hnp, if_pos hcost]

theorem adjustFee_neg_dustLeft (approve fee : Nat → Nat) (tx : TxBuilder) (amount : Int)
    (h0 : amount < 0)
    (hfind : tx.outputs.findIdx? (fun o => o.isRemainder) = none)
    (hcost : ¬ (fee (if tx.changeScript.len = 0 then EstimatedSize approve tx + P2PKHOutputSize
        else EstimatedSize approve tx + OutputSize tx.changeScript) -
      fee (EstimatedSize approve tx) > (-amount).toNat))
    (hadj : ¬ ((-amount).toNat -
        (fee (if tx.changeScript.len = 0 then EstimatedSize approve tx + P2PKHOutputSize
          else EstimatedSize approve tx + OutputSize tx.changeScript) -
         fee (EstimatedSize approve tx)) >
      (if tx.changeScript.len = 0 then
          (fee (P2PKHOutputSize * 2), fee (MaximumP2PKHInputSize * 2))
        else OutputTotalCost approve fee tx.changeScript).1 +
      (if tx.changeScript.len = 0 then
          (fee (P2PKHOutputSize * 2), fee (MaximumP2PKHInputSize * 2))
        else OutputTotalCost approve fee tx.changeScript).2)) :
    AdjustFee approve fee tx amount = (tx, true, none) := by
  have hne : amount ≠ 0 := by omega
  have hnp : ¬ amount > 0 := by omega
  simp only [AdjustFee, hfind, if_neg hne, if_neg hnp, if_neg hcost, if_neg hadj]

theorem adjustFee_neg_needAddr (approve fee : Nat → Nat) (tx : TxBuilder) (amount : Int)
    (h0 : amount < 0)
    (hfind : tx.outputs.findIdx? (fun o => o.isRemainder) = none)
    (hlen : tx.changeScript.len = 0)
    (hcost : ¬ (fee (EstimatedSize approve tx + P2PKHOutputSize) -
      fee (EstimatedSize approve tx) > (-amount).toNat))
    (hadj : (-amount).toNat -
        (fee (EstimatedSize approve tx + P2PKHOutputSize) - fee (EstimatedSize approve tx)) >
      fee (P2PKHOutputSize * 2) + fee (MaximumP2PKHInputSize * 2)) :
    AdjustFee approve fee tx amount = (tx, false, some .changeAddressNeeded) := by
  have hne : amount ≠ 0 := by omega
  have hnp : ¬ amount > 0 := by omega
  simp only [AdjustFee, hfind, if_neg hne, if_neg hnp, hlen]
  simp only [if_true, eq_self_iff_true]
  simp [if_neg hcost, if_pos hadj]

theorem adjustFee_neg_create (approve fee : Nat → Nat) (tx : TxBuilder) (amount : Int)
    (h0 : amount < 0)
    (hfind : tx.outputs.findIdx? (fun o => o.isRemainder) = none)
    (hlen : ¬ tx.changeScript.len = 0)
    (hcost : ¬ (fee (EstimatedSize approve tx + OutputSize tx.changeScript) -
      fee (EstimatedSize approve tx) > (-amount).toNat))
    (hadj : (-amount).toNat -
        (fee (EstimatedSize approve tx + OutputSize tx.changeScript) -
         fee (EstimatedSize approve tx)) >
      (OutputTotalCost approve fee tx.changeScript).1 +
      (OutputTotalCost approve fee tx.changeScript).2) :
    AdjustFee approve fee tx amount =
      ({ tx with
          outputs := tx.outputs ++
            [{ lockingScript := tx.changeScript,
               value := (-amount).toNat -
                 (fee (EstimatedSize approve tx + OutputSize tx.changeScript) -
                  fee (EstimatedSize approve tx)),
               isRemainder := true, addedForFee := true, keyID := tx.changeKeyID }] },
       false, none) := by
  have hne : amount ≠ 0 := by omega
  have hnp : ¬ amount > 0 := by omega
  simp only [AdjustFee, hfind, if_neg hne, if_neg hnp, if_neg hlen]
  simp [if_neg hcost, if_pos hadj]

/-- Full frame characterization of one `AdjustFee` call: the inputs and the
builder configuration are untouched, and the output list is either unchanged,
a value update of the first `IsRemainder` output, a deletion of that output
(only when it carries the `addedForFee` flag), or one appended change
output. -/
theorem adjustFee_shape (approve fee : Nat → Nat) (tx : TxBuilder) (amount : Int) :
    (AdjustFee approve fee tx amount).1.inputs = tx.inputs ∧
    (AdjustFee approve fee tx amount).1.changeScript = tx.changeScript ∧
    (AdjustFee approve fee tx amount).1.changeKeyID = tx.changeKeyID ∧
    ((AdjustFee approve fee tx amount).1.outputs = tx.outputs ∨
     (∃ i, tx.outputs.findIdx? (fun o => o.isRemainder) = some i ∧
        ((∃ v, (AdjustFee approve fee tx amount).1.outputs =
            tx.outputs.set i ({ tx.outputs[i]! with value := v })) ∨
         (tx.outputs[i]!.addedForFee = true ∧
          (AdjustFee approve fee tx amount).1.outputs = tx.outputs.eraseIdx i))) ∨
     (∃ o, (AdjustFee approve fee tx amount).1.outputs = tx.outputs ++ [o])) := by
  by_cases h0 : amount = 0
  · subst h0
    rw [adjustFee_zero]
    exact ⟨rfl, rfl, rfl, Or.inl rfl⟩
  rcases lt_or_gt_of_ne h0 with hneg | hpos
  · cases hfind : tx.outputs.findIdx? (fun o => o.isRemainder) with
    | some i =>
      rw [adjustFee_neg_grow approve fee tx amount i hneg hfind]
      exact ⟨rfl, rfl, rfl, Or.inr (Or.inl ⟨i, rfl, Or.inl ⟨_, rfl⟩⟩)⟩
    | none =>
      by_cases hcost : fee (if tx.changeScript.len = 0 then
            EstimatedSize approve tx + P2PKHOutputSize
          else EstimatedSize approve tx + OutputSize tx.changeScript) -
          fee (EstimatedSize approve tx) > (-amount).toNat
      · rw [adjustFee_neg_tooCostly approve fee tx amount hneg hfind hcost]
        exact ⟨rfl, rfl, rfl, Or.inl rfl⟩
      by_cases hadj : (-amount).toNat -
          (fee (if tx.changeScript.len = 0 then EstimatedSize approve tx + P2PKHOutputSize
            else EstimatedSize approve tx + OutputSize tx.changeScript) -
           fee (EstimatedSize approve tx)) >
          (if tx.changeScript.len = 0 then
              (fee (P2PKHOutputSize * 2), fee (MaximumP2PKHInputSize * 2))
            else OutputTotalCost approve fee tx.changeScript).1 +
          (if tx.changeScript.len = 0 then
              (fee (P2PKHOutputSize * 2), fee (MaximumP2PKHInputSize * 2))
            else OutputTotalCost approve fee tx.changeScript).2
      · by_cases hlen : tx.changeScript.len = 0
        · rw [adjustFee_neg_needAddr approve fee tx amount hneg hfind hlen
            (by simpa [hlen] using hcost) (by simpa [hlen] using hadj)]
          exact ⟨rfl, rfl, rfl, Or.inl rfl⟩
        · rw [adjustFee_neg_create approve fee tx amount hneg hfind hlen
            (by simpa [hlen] using hcost) (by simpa [hlen] using hadj)]
          exact ⟨rfl, rfl, rfl, Or.inr (Or.inr ⟨_, rfl⟩)⟩
      · rw [adjustFee_neg_dustLeft approve fee tx amount hneg hfind hcost hadj]
        exact ⟨rfl, rfl, rfl, Or.inl rfl⟩
  · cases hfind : tx.outputs.findIdx? (fun o => o.isRemainder) with
    | none =>
      rw [adjustFee_pos_noChange approve fee tx amount hpos hfind]
      exact ⟨rfl, rfl, rfl, Or.inl rfl⟩
    | some i =>
      by_cases hval : tx.outputs[i]!.value < amount.toNat
      · rw [adjustFee_pos_notEnough approve fee tx amount i hpos hfind hval]
        exact ⟨rfl, rfl, rfl, Or.inl rfl⟩
      by_cases hdust : tx.outputs[i]!.value - amount.toNat <
          (OutputTotalCost approve fee tx.outputs[i]!.lockingScript).1 +
          (OutputTotalCost approve fee tx.outputs[i]!.lockingScript).2
      · cases haf : tx.outputs[i]!.addedForFee with
        | false =>
          rw [adjustFee_pos_below_notOwned approve fee tx amount i hpos hfind hval hdust haf]
          exact ⟨rfl, rfl, rfl, Or.inr (Or.inl ⟨i, rfl, Or.inl ⟨_, rfl⟩⟩)⟩
        | true =>
          rw [adjustFee_pos_below_owned approve fee tx amount i hpos hfind hval hdust haf]
          exact ⟨rfl, rfl, rfl, Or.inr (Or.inl ⟨i, rfl, Or.inr ⟨haf, rfl⟩⟩)⟩
      · rw [adjustFee_pos_keep approve fee tx amount i hpos hfind hval hdust]
        exact ⟨rfl, rfl, rfl, Or.inr (Or.inl ⟨i, rfl, Or.inl ⟨_, rfl⟩⟩)⟩

/-! ### Concrete sample data for the witnesses and counterexamples -/

/-- A standard 25-byte P2PKH locking script. -/
def sampleP2PKH : Script := ⟨.p2pkh, 25⟩

/-- Scenario-B style builder: one reconciler-owned change output worth 50. -/
def txOwnedChange : TxBuilder :=
  { inputs := [], outputs := [⟨sampleP2PKH, 50, true, true, ""⟩],
    changeScript := ⟨.otherTemplate, 0⟩, changeKeyID := "" }

/-- Same change output but caller-owned (no `addedForFee` flag). -/
def txCallerChange : TxBuilder :=
  { inputs := [], outputs := [⟨sampleP2PKH, 50, true, false, ""⟩],
    changeScript := ⟨.otherTemplate, 0⟩, changeKeyID := "" }

/-- Scenario-A style builder: one caller-owned change output worth 1000. -/
def txChange1000 : TxBuilder :=
  { inputs := [], outputs := [⟨sampleP2PKH, 1000, true, false, ""⟩],
    changeScript := ⟨.otherTemplate, 0⟩, changeKeyID := "" }

/-- Scenario-C style builder: no outputs, a configured P2PKH change script. -/
def txNoChange : TxBuilder :=
  { inputs := [], outputs := [], changeScript := sampleP2PKH, changeKeyID := "chg" }

/-- Scenario-D style builder: no outputs and no configured change script. -/
def txNoChangeScript : TxBuilder :=
  { inputs := [], outputs := [], changeScript := ⟨.otherTemplate, 0⟩, changeKeyID := "" }

/-! ### Claim theorems -/

/-- C1: with `targetDelta > 0`, when the first `IsRemainder` output's value
after subtraction falls below its `outputFee + inputFee` total cost, a
reconciler-owned (`addedForFee`) output is removed and `AdjustFee` returns
`settled = true` with no error; a caller-owned output is not deleted and
`AdjustFee` returns an `InsufficientValue` error; and no output lacking the
`addedForFee` flag is ever deleted by any reconciliation call. -/
theorem c1_reconciler_deletion_rules :
    (∀ (approve fee : Nat → Nat) (tx : TxBuilder) (amount : Int) (i : Nat),
      amount > 0 →
      tx.outputs.findIdx? (fun o => o.isRemainder) = some i →
      ¬ tx.outputs[i]!.value < amount.toNat →
      tx.outputs[i]!.value - amount.toNat <
        (OutputTotalCost approve fee tx.outputs[i]!.lockingScript).1 +
        (OutputTotalCost approve fee tx.outputs[i]!.lockingScript).2 →
      tx.outputs[i]!.addedForFee = true →
      AdjustFee approve fee tx amount =
        ({ tx with outputs := tx.outputs.eraseIdx i }, true, none)) ∧
    (∀ (approve fee : Nat → Nat) (tx : TxBuilder) (amount : Int) (i : Nat),
      amount > 0 →
      tx.outputs.findIdx? (fun o => o.isRemainder) = some i →
      ¬ tx.outputs[i]!.value < amount.toNat →
      tx.outputs[i]!.value - amount.toNat <
        (OutputTotalCost approve fee tx.outputs[i]!.lockingScript).1 +
        (OutputTotalCost approve fee tx.outputs[i]!.lockingScript).2 →
      tx.outputs[i]!.addedForFee = false →
      AdjustFee approve fee tx amount =
        ({ tx with
            outputs := tx.outputs.set i
              ({ tx.outputs[i]! with value := tx.outputs[i]!.value - amount.toNat }) },
         false, some .insufficientValue)) ∧
    (∀ (approve fee : Nat → Nat) (tx : TxBuilder) (amount : Int),
      (AdjustFee approve fee tx amount).1.outputs.length < tx.outputs.length →
      ∃ i, tx.outputs.findIdx? (fun o => o.isRemainder) = some i ∧
        tx.outputs[i]!.addedForFee = true ∧
        (AdjustFee approve fee tx amount).1.outputs = tx.outputs.eraseIdx i) := by
  refine ⟨adjustFee_pos_below_owned, adjustFee_pos_below_notOwned, ?_⟩
  intro approve fee tx amount hlen
  rcases (adjustFee_shape approve fee tx amount).2.2.2 with h | ⟨i, hfind, h | ⟨haf, h⟩⟩ | ⟨o, h⟩
  · rw [h] at hlen; omega
  · rcases h with ⟨v, h⟩
    rw [h, List.length_set] at hlen; omega
  · exact ⟨i, hfind, haf, h⟩
  · rw [h, List.length_append] at hlen; simp at hlen

/-- Witness for C1 at scenario-B style inputs: owned change of value 50,
`targetDelta = 45`, total cost 183 at unit fee rate. -/
theorem c1_witness :
    (AdjustFee id id txOwnedChange 45 =
      ({ txOwnedChange with outputs := txOwnedChange.outputs.eraseIdx 0 }, true, none)) ∧
    (AdjustFee id id txCallerChange 45 =
      ({ txCallerChange with
          outputs := txCallerChange.outputs.set 0
            ({ txCallerChange.outputs[0]! with
                value := txCallerChange.outputs[0]!.value - (45 : Int).toNat }) },
       false, some .insufficientValue)) ∧
    (∃ i, txOwnedChange.outputs.findIdx? (fun o => o.isRemainder) = some i ∧
      txOwnedChange.outputs[i]!.addedForFee = true ∧
      (AdjustFee id id txOwnedChange 45).1.outputs = txOwnedChange.outputs.eraseIdx i) :=
  ⟨c1_reconciler_deletion_rules.1 id id txOwnedChange 45 0 (by decide) (by decide)
      (by decide) (by decide) (by decide),
   c1_reconciler_deletion_rules.2.1 id id txCallerChange 45 0 (by decide) (by decide)
      (by decide) (by decide) (by decide),
   c1_reconciler_deletion_rules.2.2 id id txOwnedChange 45 (by decide)⟩

/-- C2 counterexample: a transaction with exactly one `IsRemainder` output of
value 1000 whose post-subtraction value 800 is at least its total cost; the
claim predicts `settled = true`, but `AdjustFee` with `targetDelta = 200`
returns `settled = false` (the value is set to 800, nothing is deleted and no
error is returned). -/
theorem c2_counterexample :
    (txChange1000.outputs.filter (fun o => o.isRemainder)).length = 1 ∧
    txChange1000.outputs[0]!.value = 1000 ∧
    (OutputTotalCost id id txChange1000.outputs[0]!.lockingScript).1 +
      (OutputTotalCost id id txChange1000.outputs[0]!.lockingScript).2 ≤ 1000 - 200 ∧
    (AdjustFee id id txChange1000 200).1.outputs[0]!.value = 800 ∧
    (AdjustFee id id txChange1000 200).1.outputs.length =
      txChange1000.outputs.length ∧
    (AdjustFee id id txChange1000 200).2.2 = none ∧
    (AdjustFee id id txChange1000 200).2.1 = false := by decide

/-- C2 amended: for every transaction holding exactly one `IsRemainder`
change output of value 1000 whose post-subtraction value 800 is at least the
change script's `outputFee + inputFee` total cost, `AdjustFee` with
`targetDelta = 200` sets the change output's value to 800, deletes no output,
and returns `settled = false` with no error. -/
theorem c2_change_reduced_in_place (approve fee : Nat → Nat) (tx : TxBuilder) (i : Nat)
    (hone : (tx.outputs.filter (fun o => o.isRemainder)).length = 1)
    (hfind : tx.outputs.findIdx? (fun o => o.isRemainder) = some i)
    (hval : tx.outputs[i]!.value = 1000)
    (hdust : (OutputTotalCost approve fee tx.outputs[i]!.lockingScript).1 +
      (OutputTotalCost approve fee tx.outputs[i]!.lockingScript).2 ≤ 800) :
    AdjustFee approve fee tx 200 =
      ({ tx with
          outputs := tx.outputs.set i ({ tx.outputs[i]! with value := 800 }) },
       false, none) := by
  have h := adjustFee_pos_keep approve fee tx 200 i (by decide) hfind
    (by rw [hval]; decide) (by rw [hval]; omega)
  rw [h, hval]
  rfl

/-- Witness for C2 amended at the scenario-A builder. -/
theorem c2_witness :
    AdjustFee id id txChange1000 200 =
      ({ txChange1000 with
          outputs := txChange1000.outputs.set 0
            ({ txChange1000.outputs[0]! with value := 800 }) },
       false, none) :=
  c2_change_reduced_in_place id id txChange1000 0 (by decide) (by decide) (by decide)
    (by decide)

/-- C3: with `targetDelta < 0` on a transaction with no `IsRemainder` output:
if the marginal fee of adding a change output (`inducedCost = hypotheticalFee
− currentFee`) exceeds `−targetDelta`, `AdjustFee` returns `settled = true`
and adds nothing; otherwise, with `adjustment = −targetDelta − inducedCost`,
if `adjustment > outputFee + inputFee` it creates a new output of value
`adjustment` flagged `IsRemainder` and `addedForFee` when a change script is
configured and fails with `ChangeAddressNeeded` when none is configured; and
if `adjustment ≤ outputFee + inputFee` it returns `settled = true` with no
new output. -/
theorem c3_create_change_rules :
    (∀ (approve fee : Nat → Nat) (tx : TxBuilder) (amount : Int),
      amount < 0 →
      tx.outputs.findIdx? (fun o => o.isRemainder) = none →
      fee (if tx.changeScript.len = 0 then EstimatedSize approve tx + P2PKHOutputSize
          else EstimatedSize approve tx + OutputSize tx.changeScript) -
        fee (EstimatedSize approve tx) > (-amount).toNat →
      AdjustFee approve fee tx amount = (tx, true, none)) ∧
    (∀ (approve fee : Nat → Nat) (tx : TxBuilder) (amount : Int),
      amount < 0 →
      tx.outputs.findIdx? (fun o => o.isRemainder) = none →
      ¬ tx.changeScript.len = 0 →
      ¬ (fee (EstimatedSize approve tx + OutputSize tx.changeScript) -
        fee (EstimatedSize approve tx) > (-amount).toNat) →
      (-amount).toNat -
          (fee (EstimatedSize approve tx + OutputSize tx.changeScript) -
           fee (EstimatedSize approve tx)) >
        (OutputTotalCost approve fee tx.changeScript).1 +
        (OutputTotalCost approve fee tx.changeScript).2 →
      AdjustFee approve fee tx amount =
        ({ tx with
            outputs := tx.outputs ++
              [{ lockingScript := tx.changeScript,
                 value := (-amount).toNat -
                   (fee (EstimatedSize approve tx + OutputSize tx.changeScript) -
                    fee (EstimatedSize approve tx)),
                 isRemainder := true, addedForFee := true, keyID := tx.changeKeyID }] },
         false, none)) ∧
    (∀ (approve fee : Nat → Nat) (tx : TxBuilder) (amount : Int),
      amount < 0 →
      tx.outputs.findIdx? (fun o => o.isRemainder) = none →
      tx.changeScript.len = 0 →
      ¬ (fee (EstimatedSize approve tx + P2PKHOutputSize) -
        fee (EstimatedSize approve tx) > (-amount).toNat) →
      (-amount).toNat -
          (fee (EstimatedSize approve tx + P2PKHOutputSize) -
           fee (EstimatedSize approve tx)) >
        fee (P2PKHOutputSize * 2) + fee (MaximumP2PKHInputSize * 2) →
      AdjustFee approve fee tx amount = (tx, false, some .changeAddressNeeded)) ∧
    (∀ (approve fee : Nat → Nat) (tx : TxBuilder) (amount : Int),
      amount < 0 →
      tx.outputs.findIdx? (fun o => o.isRemainder) = none →
      ¬ (fee (if tx.changeScript.len = 0 then EstimatedSize approve tx + P2PKHOutputSize
          else EstimatedSize approve tx + OutputSize tx.changeScript) -
        fee (EstimatedSize approve tx) > (-amount).toNat) →
      ¬ ((-amount).toNat -
          (fee (if tx.changeScript.len = 0 then EstimatedSize approve tx + P2PKHOutputSize
            else EstimatedSize approve tx + OutputSize tx.changeScript) -
           fee (EstimatedSize approve tx)) >
        (if tx.changeScript.len = 0 then
            (fee (P2PKHOutputSize * 2), fee (MaximumP2PKHInputSize * 2))
          else OutputTotalCost approve fee tx.changeScript).1 +
        (if tx.changeScript.len = 0 then
            (fee (P2PKHOutputSize * 2), fee (MaximumP2PKHInputSize * 2))
          else OutputTotalCost approve fee tx.changeScript).2) →
      AdjustFee approve fee tx amount = (tx, true, none)) :=
  ⟨adjustFee_neg_tooCostly,
   fun approve fee tx amount h0 hfind hlen hcost hadj =>
     adjustFee_neg_create approve fee tx amount h0 hfind hlen hcost hadj,
   fun approve fee tx amount h0 hfind hlen hcost hadj =>
     adjustFee_neg_needAddr approve fee tx amount h0 hfind hlen hcost hadj,
   adjustFee_neg_dustLeft⟩

/-- Witness for C3: at unit fee rate the hypothetical extra P2PKH-script
output costs 34; `targetDelta = −5` is swallowed, `targetDelta = −500`
creates a change output of 466 (or fails with `ChangeAddressNeeded` when no
change script is configured), and `targetDelta = −100` leaves 66 as fee
because it is below the 183 total cost. -/
theorem c3_witness :
    (AdjustFee id id txNoChange (-5) = (txNoChange, true, none)) ∧
    (AdjustFee id id txNoChange (-500) =
      ({ txNoChange with
          outputs := txNoChange.outputs ++
            [{ lockingScript := txNoChange.changeScript,
               value := ((-(-500 : Int)).toNat -
                 (id (EstimatedSize id txNoChange + OutputSize txNoChange.changeScript) -
                  id (EstimatedSize id txNoChange))),
               isRemainder := true, addedForFee := true,
               keyID := txNoChange.changeKeyID }] },
       false, none)) ∧
    (AdjustFee id id txNoChangeScript (-500) =
      (txNoChangeScript, false, some .changeAddressNeeded)) ∧
    (AdjustFee id id txNoChange (-100) = (txNoChange, true, none)) :=
  ⟨c3_create_change_rules.1 id id txNoChange (-5) (by decide) (by decide) (by decide),
   c3_create_change_rules.2.1 id id txNoChange (-500) (by decide) (by decide) (by decide)
     (by decide) (by decide),
   c3_create_change_rules.2.2.1 id id txNoChangeScript (-500) (by decide) (by decide)
     (by decide) (by decide) (by decide),
   c3_create_change_rules.2.2.2 id id txNoChange (-100) (by decide) (by decide) (by decide)
     (by decide)⟩

/-- C8: every `AdjustFee` call, on every path, leaves the inputs and builder
configuration unchanged and mutates the value or existence of at most one
output: the first `IsRemainder` output found by position (value update or,
only when reconciler-owned, deletion) or one newly appended change output. -/
theorem c8_mutates_at_most_one_output (approve fee : Nat → Nat) (tx : TxBuilder)
    (amount : Int) :
    (AdjustFee approve fee tx amount).1.inputs = tx.inputs ∧
    (AdjustFee approve fee tx amount).1.changeScript = tx.changeScript ∧
    (AdjustFee approve fee tx amount).1.changeKeyID = tx.changeKeyID ∧
    ((AdjustFee approve fee tx amount).1.outputs = tx.outputs ∨
     (∃ i, tx.outputs.findIdx? (fun o => o.isRemainder) = some i ∧
        ((∃ v, (AdjustFee approve fee tx amount).1.outputs =
            tx.outputs.set i ({ tx.outputs[i]! with value := v })) ∨
         (tx.outputs[i]!.addedForFee = true ∧
          (AdjustFee approve fee tx amount).1.outputs = tx.outputs.eraseIdx i))) ∨
     (∃ o, (AdjustFee approve fee tx amount).1.outputs = tx.outputs ++ [o])) :=
  adjustFee_shape approve fee tx amount

/-- C10: when `targetDelta > 0`, the first `IsRemainder` output can cover the
subtraction but is caller-owned and its post-subtraction value falls below
`outputFee + inputFee`, `AdjustFee` returns an `InsufficientValue` error
while the change output's value has already been decreased by `targetDelta`:
the failure leaves the transaction mutated. -/
theorem c10_insufficient_value_not_atomic (approve fee : Nat → Nat) (tx : TxBuilder)
    (amount : Int) (i : Nat)
    (h0 : amount > 0)
    (hfind : tx.outputs.findIdx? (fun o => o.isRemainder) = some i)
    (hval : ¬ tx.outputs[i]!.value < amount.toNat)
    (hdust : tx.outputs[i]!.value - amount.toNat <
      (OutputTotalCost approve fee tx.outputs[i]!.lockingScript).1 +
      (OutputTotalCost approve fee tx.outputs[i]!.lockingScript).2)
    (haf : tx.outputs[i]!.addedForFee = false) :
    AdjustFee approve fee tx amount =
      ({ tx with
          outputs := tx.outputs.set i
            ({ tx.outputs[i]! with value := tx.outputs[i]!.value - amount.toNat }) },
       false, some .insufficientValue) :=
  adjustFee_pos_below_notOwned approve fee tx amount i h0 hfind hval hdust haf

/-- Witness for C10 at the caller-owned scenario-B builder. -/
theorem c10_witness :
    AdjustFee id id txCallerChange 45 =
      ({ txCallerChange with
          outputs := txCallerChange.outputs.set 0
            ({ txCallerChange.outputs[0]! with
                value := txCallerChange.outputs[0]!.value - (45 : Int).toNat }) },
       false, some .insufficientValue) :=
  c10_insufficient_value_not_atomic id id txCallerChange 45 0 (by decide) (by decide)
    (by decide) (by decide) (by decide)

end TxB

namespace Fees

open TxB Codec

inductive FeesErr where
  | missingUnlockingData
  deriving DecidableEq, Repr

/-- Embeds `wire.TxIn` as used by `fees.InputValue`. -/
structure TxIn where
  unlockingScript : UScript
  deriving DecidableEq, Repr

/-- Embeds `wire.TxOut` as used by `fees.InputValue` (the spent output). -/
structure TxOut where
  value : Nat
  lockingScript : Script
  deriving DecidableEq, Repr

/-- Embeds `fees.InputValue` (part_001 lines 197-218), translated exactly as
written: note that the final line of the source returns
`unlockingData.Size`. -/
def InputValue (txin : TxIn) (inputOutput : TxOut) : Except FeesErr Nat :=
  if inputOutput.value ≠ 0 then .ok inputOutput.value
  else
    match txin.unlockingScript with
    | .raw _ => .error .missingUnlockingData
    | .falseOpReturn data =>
      match protocolsParseUD data with
      | none => .error .missingUnlockingData
      | some unlockingData => .ok unlockingData.Size

end Fees

namespace TxB

/-- C4: `txbuilder.UnlockingScriptSize` on an agent-wrapped script strips the
inner template's mandatory hard-verification clause, recurses, and applies
the approval-layer overhead to the recursive result (second conjunct is
scenario E: a hard-verified P2PKH inner script yields the wrapper overhead of
108); the parallel `fees.EstimateUnlockingSize` does NOT do this: its
inverted `err != nil` check on `MatchScript` makes it return
`ErrWrongScriptTemplate` for every agent-wrapped script. -/
theorem c4_agent_wrapped_unlocking_size :
    (∀ (approve : Nat → Nat) (t : Template),
      UnlockingScriptSize approve (.agentWrapped t) =
        (UnlockingScriptSize approve (removeHardVerify t)).map approve) ∧
    (∀ approve : Nat → Nat,
      UnlockingScriptSize approve (.agentWrapped (.hardVerified .p2pkh)) =
        .ok (approve (MaxSignaturesPushDataSize + PublicKeyPushDataSize))) ∧
    (∀ t : Template,
      Fees.EstimateUnlockingSize (.agentWrapped t) = .error .wrongScriptTemplate) :=
  ⟨UnlockingScriptSize_agentWrapped, fun approve => rfl, fun t => rfl⟩

/-- Concrete data for C5: a declaration stating unlocking size 108 and spent
value 5000, embedded in a false-op-return placeholder on an input whose spent
output is unknown locally (value recorded as 0). -/
def c5Declaration : Codec.UnlockingData := ⟨108, 5000⟩

def c5Placeholder : UScript := .falseOpReturn (Codec.UnlockingData.Write c5Declaration)

def c5Builder : TxBuilder :=
  { inputs := [⟨⟨.otherTemplate, 0⟩, 0, c5Placeholder⟩], outputs := [],
    changeScript := ⟨.otherTemplate, 0⟩, changeKeyID := "" }

/-- C5: for an input whose spent output is unknown (value 0) and whose
placeholder carries a valid declaration `{Size = 108, Value = 5000}`,
`txbuilder.TxBuilder.InputValue` uses the declared Value (5000) as claimed,
but `fees.InputValue` returns the declared Size (108) instead. -/
theorem c5_inputValue_divergence :
    c5Declaration.Size = 108 ∧
    c5Declaration.Value = 5000 ∧
    TxBuilder.InputValue c5Builder = 5000 ∧
    Fees.InputValue ⟨c5Placeholder⟩ ⟨0, ⟨.otherTemplate, 0⟩⟩ = .ok 108 := by decide

end TxB

namespace Codec

/-- C7: parsing the envelope produced by writing any `UnlockingData` or
`UnlockingSize` value yields a message equal to the written one, with the
codec's protocol ID and all written payload fields fully consumed from the
returned remaining payload. -/
theorem c7_roundtrip :
    (∀ d : UnlockingData,
      udParse (UnlockingData.Write d) = (some d, ⟨[], []⟩, none)) ∧
    (∀ s : UnlockingSize, usParse (usWrite s) = (some s, ⟨[], []⟩, none)) := by
  constructor
  · intro d
    obtain ⟨size, value⟩ := d
    simp [udParse, UnlockingData.Write, udProtocolID, pushNumber, pushNumberUnsigned,
      scriptNumberValue, scriptNumberValueUnsigned]
  · intro s
    obtain ⟨size⟩ := s
    simp [usParse, usWrite, usProtocolID, pushNumber, pushNumberUnsigned,
      scriptNumberValue, scriptNumberValueUnsigned]

/-- C9: for both codecs, a payload with no protocol IDs or a non-matching
leading tag yields "no match" with the payload unchanged and no error; a
matched tag with fewer than 3 push datas (`UnlockingData`) or fewer than 2
(`UnlockingSize`) yields the invalid-message error; and a matched tag whose
parsed version number is not 0 yields the `UnsupportedVersion` error. -/
theorem c9_parse_error_paths :
    (∀ payload : EnvelopeData, payload.protocolIDs = [] →
      udParse payload = (none, payload, none) ∧
      usParse payload = (none, payload, none)) ∧
    (∀ (payload : EnvelopeData) (pid : String) (rest : List String),
      payload.protocolIDs = pid :: rest → ¬ pid = udProtocolID →
      udParse payload = (none, payload, none)) ∧
    (∀ (payload : EnvelopeData) (pid : String) (rest : List String),
      payload.protocolIDs = pid :: rest → ¬ pid = usProtocolID →
      usParse payload = (none, payload, none)) ∧
    (∀ (payload : EnvelopeData) (rest : List String),
      payload.protocolIDs = udProtocolID :: rest → payload.payload.length < 3 →
      udParse payload =
        (none, { payload with protocolIDs := rest }, some .invalidMessage)) ∧
    (∀ (payload : EnvelopeData) (rest : List String),
      payload.protocolIDs = usProtocolID :: rest → payload.payload.length < 2 →
      usParse payload =
        (none, { payload with protocolIDs := rest }, some .invalidMessage)) ∧
    (∀ (payload : EnvelopeData) (rest : List String),
      payload.protocolIDs = udProtocolID :: rest → ¬ payload.payload.length < 3 →
      ¬ scriptNumberValue payload.payload[0]! = 0 →
      udParse payload =
        (none, { payload with protocolIDs := rest }, some .unsupportedVersion)) ∧
    (∀ (payload : EnvelopeData) (rest : List String),
      payload.protocolIDs = usProtocolID :: rest → ¬ payload.payload.length < 2 →
      ¬ scriptNumberValue payload.payload[0]! = 0 →
      usParse payload =
        (none, { payload with protocolIDs := rest }, some .unsupportedVersion)) := by
  refine ⟨?_, ?_, ?_, ?_, ?_, ?_, ?_⟩
  · intro payload h
    obtain ⟨pids, pl⟩ := payload
    simp only at h
    subst h
    exact ⟨rfl, rfl⟩
  · intro payload pid rest h hne
    obtain ⟨pids, pl⟩ := payload
    simp only at h
    subst h
    simp [udParse, hne]
  · intro payload pid rest h hne
    obtain ⟨pids, pl⟩ := payload
    simp only at h
    subst h
    simp [usParse, hne]
  · intro payload rest h hlen
    obtain ⟨pids, pl⟩ := payload
    simp only at h hlen
    subst h
    simp [udParse, hlen]
  · intro payload rest h hlen
    obtain ⟨pids, pl⟩ := payload
    simp only at h hlen
    subst h
    simp [usParse, hlen]
  · intro payload rest h hlen hv
    obtain ⟨pids, pl⟩ := payload
    simp only at h hlen hv
    subst h
    simp [udParse, hlen, hv]
  · intro payload rest h hlen hv
    obtain ⟨pids, pl⟩ := payload
    simp only at h hlen hv
    subst h
    simp [usParse, hlen, hv]

/-- Witness for C9 at concrete payloads: no protocol ID, a foreign tag, a
matched tag with too few pushes, and a matched tag with version 7. -/
theorem c9_witness :
    (udParse ⟨[], [5]⟩ = (none, ⟨[], [5]⟩, none) ∧
     usParse ⟨[], [5]⟩ = (none, ⟨[], [5]⟩, none)) ∧
    (udParse ⟨["XX"], [0, 1, 2]⟩ = (none, ⟨["XX"], [0, 1, 2]⟩, none)) ∧
    (usParse ⟨["XX"], [0, 1]⟩ = (none, ⟨["XX"], [0, 1]⟩, none)) ∧
    (udParse ⟨["UL"], [0, 1]⟩ = (none, ⟨[], [0, 1]⟩, some .invalidMessage)) ∧
    (usParse ⟨["UL_S"], [0]⟩ = (none, ⟨[], [0]⟩, some .invalidMessage)) ∧
    (udParse ⟨["UL"], [7, 1, 2]⟩ = (none, ⟨[], [7, 1, 2]⟩, some .unsupportedVersion)) ∧
    (usParse ⟨["UL_S"], [7, 1]⟩ = (none, ⟨[], [7, 1]⟩, some .unsupportedVersion)) :=
  ⟨c9_parse_error_paths.1 ⟨[], [5]⟩ (by decide),
   c9_parse_error_paths.2.1 ⟨["XX"], [0, 1, 2]⟩ "XX" [] (by decide) (by decide),
   c9_parse_error_paths.2.2.1 ⟨["XX"], [0, 1]⟩ "XX" [] (by decide) (by decide),
   c9_parse_error_paths.2.2.2.1 ⟨["UL"], [0, 1]⟩ [] (by decide) (by decide),
   c9_parse_error_paths.2.2.2.2.1 ⟨["UL_S"], [0]⟩ [] (by decide) (by decide),
   c9_parse_error_paths.2.2.2.2.2.1 ⟨["UL"], [7, 1, 2]⟩ [] (by decide) (by decide)
     (by decide),
   c9_parse_error_paths.2.2.2.2.2.2 ⟨["UL_S"], [7, 1]⟩ [] (by decide) (by decide)
     (by decide)⟩

end Codec

